import Mathlib

/-!
Verification development for the Analysis Studio XML (.axd) import module
(`anasys_xml.c`).  The C source is shallowly embedded: doubles are modelled
as exact rationals (with an `Option` wrapper where a division by zero can
produce a non-finite value), `guint32` arithmetic carries an explicit
`% 2^32`, and the Gwyddion / glib library primitives that the module calls
(data-field flips, 90-degree rotation, leading-number parsing) are modelled
from the specification, since they are external collaborators of the module.
-/

/-- One micrometre in metres, the constant `1.0E-6` of the source. -/
def micron : ℚ := 1 / 1000000

/-- 2^32, the modulus of `guint32` arithmetic. -/
def u32mod : ℕ := 4294967296

/-- A Gwyddion data field: a `yres` x `xres` grid of values with physical
extents (`xreal`, `yreal`) and origin offsets, all in metres.  `data i j`
is the sample at row `i`, column `j` (row-major, as in
`gwy_data_field_get_data`). -/
structure Grid where
  xres : ℕ
  yres : ℕ
  xreal : ℚ
  yreal : ℚ
  xoff : ℚ
  yoff : ℚ
  data : ℕ → ℕ → ℚ

instance : Inhabited Grid := ⟨⟨0, 0, 0, 0, 0, 0, fun _ _ => 0⟩⟩

/-- Modelled from the spec: `gwy_data_field_invert(f, TRUE, FALSE, FALSE)`,
the vertical flip (row order reversed). -/
def vflip (g : Grid) : Grid :=
  { g with data := fun i j => g.data (g.yres - 1 - i) j }

/-- Modelled from the spec: `gwy_data_field_invert(f, FALSE, TRUE, FALSE)`,
the horizontal flip (column order reversed). -/
def hflip (g : Grid) : Grid :=
  { g with data := fun i j => g.data i (g.xres - 1 - j) }

/-- Modelled from the spec: `gwy_data_field_new_rotated_90(f, FALSE)`, the
exact non-expanding 90-degree rotation (transpose plus reverse); resolutions
and extents swap. -/
def rot90ccw (g : Grid) : Grid :=
  { xres := g.yres, yres := g.xres, xreal := g.yreal, yreal := g.xreal,
    xoff := g.xoff, yoff := g.yoff,
    data := fun i j => g.data j (g.xres - 1 - i) }

/-- Modelled from the spec: `gwy_data_field_new_rotated_90(f, TRUE)`, the
exact 90-degree rotation in the opposite direction. -/
def rot90cw (g : Grid) : Grid :=
  { xres := g.yres, yres := g.xres, xreal := g.yreal, yreal := g.xreal,
    xoff := g.xoff, yoff := g.yoff,
    data := fun i j => g.data (g.yres - 1 - j) i }

/-- `gwy_data_field_set_xoffset` / `gwy_data_field_set_yoffset`. -/
def setOffsets (g : Grid) (x y : ℚ) : Grid :=
  { g with xoff := x, yoff := y }

/-- One height-map channel record, with the typed fields extracted by the
metadata walk of `readHeightMaps` (lines 197-399 of the source).
`decodedSize` is the byte length of the base64-decoded payload and
`sample k` the `k`-th decoded little-endian float32 value. -/
structure Channel where
  label : String
  posX : ℚ
  posY : ℚ
  rangeX : ℚ
  rangeY : ℚ
  scanAngle : ℚ
  zUnitMult : ℚ
  resolutionX : ℕ
  resolutionY : ℕ
  decodedSize : ℕ
  sample : ℕ → ℚ

/-- The data field freshly built for a channel (source lines 404-424):
resolution-sized grid, extents `range * 1.0E-6`, populated by
`gwy_convert_raw_data` with multiplier `zUnitMultiplier` and offset `0.0`. -/
def initField (c : Channel) : Grid :=
  { xres := c.resolutionX, yres := c.resolutionY,
    xreal := c.rangeX * micron, yreal := c.rangeY * micron,
    xoff := 0, yoff := 0,
    data := fun i j => c.zUnitMult * c.sample (i * c.resolutionX + j) + 0 }

/-- Outcome of processing one height-map channel (one iteration of the
loop of `readHeightMaps`).  A skipped channel is a `continue` in the C
source; `skippedSizeMismatch` carries the two `guint32` byte counts passed
to `err_SIZE_MISMATCH`. -/
inductive ChannelOutcome where
  | skippedZeroRes : ChannelOutcome
  | skippedSizeMismatch (expected actual : ℕ) : ChannelOutcome
  | ok (primary : Grid) (rotated : Option Grid)
       (title : String) (rotatedTitle : Option String) : ChannelOutcome

def ChannelOutcome.primary : ChannelOutcome → Grid
  | .ok p _ _ _ => p
  | _ => default

def ChannelOutcome.rotated : ChannelOutcome → Option Grid
  | .ok _ r _ _ => r
  | _ => none

def ChannelOutcome.rotGrid : ChannelOutcome → Grid
  | .ok _ (some r) _ _ => r
  | _ => default

def ChannelOutcome.isOkB : ChannelOutcome → Bool
  | .ok _ _ _ _ => true
  | _ => false

/-- One iteration of the channel loop of `readHeightMaps` (source lines
401-520).  `rot` abstracts the external `gwy_data_field_new_rotated`
(B-spline interpolation, expanding canvas); it receives the field and the
scan angle in degrees (the `PI_over_180` radian conversion happens inside
the external call boundary). -/
def processChannel (rot : Grid → ℚ → Grid) (c : Channel) : ChannelOutcome :=
  let numPx : ℕ := c.resolutionX * c.resolutionY % u32mod
  if numPx < 1 then
    ChannelOutcome.skippedZeroRes
  else if c.decodedSize ≠ 4 * numPx then
    ChannelOutcome.skippedSizeMismatch (4 * numPx % u32mod) (c.decodedSize % u32mod)
  else if c.scanAngle = 0 then
    let dfield := vflip (initField c)
    let width := c.rangeX
    let height := c.rangeY
    ChannelOutcome.ok
      (setOffsets dfield ((c.posX - 1/2 * width) * micron)
                         ((c.posY - 1/2 * height) * micron))
      none c.label none
  else if c.scanAngle = 180 then
    let dfield := hflip (initField c)
    let width := c.rangeX
    let height := c.rangeY
    ChannelOutcome.ok
      (setOffsets dfield ((c.posX - 1/2 * width) * micron)
                         ((c.posY - 1/2 * height) * micron))
      none c.label none
  else if c.scanAngle = 90 then
    let dfield := vflip (rot90ccw (initField c))
    let width := c.rangeY
    let height := c.rangeX
    ChannelOutcome.ok
      (setOffsets dfield ((c.posX - 1/2 * width) * micron)
                         ((c.posY - 1/2 * height) * micron))
      none c.label none
  else if c.scanAngle = -90 then
    let dfield := vflip (rot90cw (initField c))
    let width := c.rangeY
    let height := c.rangeX
    ChannelOutcome.ok
      (setOffsets dfield ((c.posX - 1/2 * width) * micron)
                         ((c.posY - 1/2 * height) * micron))
      none c.label none
  else
    let dfield := initField c
    let dfieldRotate := vflip (rot (initField c) c.scanAngle)
    let width := dfieldRotate.xreal
    let height := dfieldRotate.yreal
    ChannelOutcome.ok
      (setOffsets dfield 1 1)
      (some (setOffsets dfieldRotate (c.posX * micron - 1/2 * width)
                                     (c.posY * micron - 1/2 * height)))
      (c.label ++ " (Offset)") (some (c.label ++ " (Rotated)"))

/-- The canonical scan angles of the dispatch (every other angle takes the
oblique branch). -/
def canonicalAngle (a : ℚ) : Prop := a = 0 ∨ a = 180 ∨ a = 90 ∨ a = -90

instance (a : ℚ) : Decidable (canonicalAngle a) := by
  unfold canonicalAngle; infer_instance

/-- A trivial stand-in rotation oracle used for concrete evaluations. -/
def trivRot : Grid → ℚ → Grid := fun g _ => g

/-- The subtracting loop of the scan-angle normalization (source lines
343-344): `while (scan_angle > 180.0) scan_angle -= 360.0`. -/
def normAngleSub (a : ℚ) : ℚ :=
  if h : 180 < a then normAngleSub (a - 360) else a
  termination_by (⌈(a - 180) / 360⌉).toNat
  decreasing_by
    have h1 : (0 : ℚ) < (a - 180) / 360 := by
      apply div_pos <;> linarith
    have h2 : (0 : ℤ) < ⌈(a - 180) / 360⌉ := Int.ceil_pos.mpr h1
    have h3 : (a - 360 - 180) / 360 = (a - 180) / 360 - 1 := by ring
    rw [h3, Int.ceil_sub_one]
    omega

/-- The adding loop of the scan-angle normalization (source lines
345-346): `while (scan_angle <= -180.0) scan_angle += 360.0`. -/
def normAngleAdd (a : ℚ) : ℚ :=
  if h : a ≤ -180 then normAngleAdd (a + 360) else a
  termination_by (⌈(-180 - a) / 360⌉ + 1).toNat
  decreasing_by
    have h1 : (0 : ℚ) ≤ (-180 - a) / 360 := by
      apply div_nonneg <;> linarith
    have h2 : (0 : ℤ) ≤ ⌈(-180 - a) / 360⌉ := Int.ceil_nonneg h1
    have h3 : (-180 - (a + 360)) / 360 = (-180 - a) / 360 - 1 := by ring
    rw [h3, Int.ceil_sub_one]
    omega

/-- Scan-angle normalization into (-180, 180]: first the subtracting loop,
then the adding loop, exactly as in the source. -/
def normAngle (a : ℚ) : ℚ := normAngleAdd (normAngleSub a)

/-- Digit-run scanner: consumes leading decimal digits, accumulating the
value and the number of digits consumed, and returns the rest. -/
def readDigitsAux : List Char → ℕ → ℕ → ℕ × ℕ × List Char
  | [], acc, n => (acc, n, [])
  | ch :: rest, acc, n =>
    if ch.isDigit then readDigitsAux rest (10 * acc + (ch.toNat - 48)) (n + 1)
    else (acc, n, ch :: rest)

/-- Optional leading sign: the parsed sign factor and the remaining
characters. -/
def stripSign (l : List Char) : ℚ × List Char :=
  match l with
  | ch :: rest =>
    if ch = '-' then (-1, rest)
    else if ch = '+' then (1, rest)
    else (1, ch :: rest)
  | [] => (1, [])

/-- Optional fraction part: digits value and digit count after a leading
decimal point, `(0, 0)` otherwise. -/
def fracPart (l : List Char) : ℕ × ℕ :=
  match l with
  | ch :: rest =>
    if ch = '.' then ((readDigitsAux rest 0 0).1, (readDigitsAux rest 0 0).2.1)
    else (0, 0)
  | [] => (0, 0)

/-- Modelled from the spec: `g_ascii_strtod` (glib, external) applied to the
whole Value string parses its leading numeric token — optional leading
spaces and sign, integer digits, optional fraction — and yields 0 when no
digits are present. -/
def parseLeadingNumber (cs : List Char) : ℚ :=
  let sr := stripSign (cs.dropWhile (fun ch => ch = ' '))
  let ipart := readDigitsAux sr.2 0 0
  let fp := fracPart ipart.2.2
  if ipart.2.1 + fp.2 = 0 then 0
  else sr.1 * ((ipart.1 : ℚ) + (fp.1 : ℚ) / (10 : ℚ) ^ fp.2)

/-- The ScanAngle tag handling (source lines 331-351): if the Value contains
a space character (`strchr(value, ' ')`), the leading number of the Value is
parsed and normalized; otherwise the scan angle is 0.  (The source's
`p = '\0';` assigns the pointer rather than terminating the string, but
`g_ascii_strtod` stops at the space on its own, so the parsed value is the
leading numeric token either way.) -/
def scanAngleOfValue (cs : List Char) : ℚ :=
  if cs.contains ' ' then normAngle (parseLeadingNumber cs) else 0

/-- Option-valued rational arithmetic modelling C doubles on the paths the
module exercises: `none` stands for a non-finite value (infinity or NaN).
Division by zero yields `none`; any operation on a non-finite operand on
these paths again yields a non-finite value. -/
def qdiv : Option ℚ → Option ℚ → Option ℚ
  | some a, some b => if b = 0 then none else some (a / b)
  | _, _ => none

def qadd : Option ℚ → Option ℚ → Option ℚ
  | some a, some b => some (a + b)
  | _, _ => none

def qmul : Option ℚ → Option ℚ → Option ℚ
  | some a, some b => some (a * b)
  | _, _ => none

/-- The total length passed to `gwy_data_line_new` for a spectrum (source
lines 670-672): `(endWavenum-startWavenum)*(1.0+(1.0/(numDataPoints-1.0)))`
in double arithmetic. -/
def datalineReal (n : ℕ) (s e : ℚ) : Option ℚ :=
  qmul (some (e - s)) (qadd (some 1) (qdiv (some 1) (some ((n : ℚ) - 1))))

/-- A Gwyddion data line: `res` samples, declared total length `real`
(`none` when non-finite), axis offset `off`; `ydata` is `none` while the
buffer is still uninitialized (`gwy_data_line_new(..., FALSE)`). -/
structure DataLine where
  res : ℕ
  real : Option ℚ
  off : ℚ
  ydata : Option (ℕ → ℚ)

/-- The data line built for one spectrum entry (source lines 670-673),
before its sample buffer is filled. -/
def mkDataLine (n : ℕ) (s e : ℚ) : DataLine :=
  { res := n, real := datalineReal n s e, off := s, ydata := none }

/-- Per-sample axis spacing of a data line, `real / res` as in Gwyddion. -/
def lineSpacing (d : DataLine) : Option ℚ :=
  match d.real with
  | some r => some (r / (d.res : ℚ))
  | none => none

/-- A spectrum inside a `GwySpectra` collection: the (shared) data line plus
its location in metres. -/
structure LocSpectrum where
  line : DataLine
  x : ℚ
  y : ℚ

/-- One rendered-spectrum entry, with the typed fields extracted by
`readSpectra` (source lines 591-667). -/
structure SpecEntry where
  label : String
  numDataPoints : ℕ
  startWavenum : ℚ
  endWavenum : ℚ
  locationX : ℚ
  locationY : ℚ
  decodedSize : ℕ
  sample : ℕ → ℚ

/-- An element child of the RenderedSpectra node: either an
`IRRenderedSpectra` element or an element of another name (skipped without
incrementing `specNum`). -/
inductive SpecNode where
  | ir (e : SpecEntry) : SpecNode
  | otherElem : SpecNode

/-- Keys of the output container (the host's string paths, structured). -/
inductive CKey where
  | data (i : ℕ) : CKey
  | dataTitle (i : ℕ) : CKey
  | sps (i : ℕ) : CKey
  deriving DecidableEq

/-- Values stored in the output container. -/
inductive CVal where
  | img (g : Grid) : CVal
  | title (s : String) : CVal
  | spsColl (l : List LocSpectrum) : CVal

/-- The output container, a key/value store with replace-on-set semantics
(`gwy_container_set_object_by_name`). -/
abbrev Container := List (CKey × CVal)

def cset (c : Container) (k : CKey) (v : CVal) : Container :=
  match c with
  | [] => [(k, v)]
  | (k2, v2) :: rest => if k2 = k then (k, v) :: rest else (k2, v2) :: cset rest k v

def clookup (c : Container) (k : CKey) : Option CVal :=
  match c with
  | [] => none
  | (k2, v2) :: rest => if k2 = k then some v2 else clookup rest k

/-- The spectrum collection stored at `/sps/i`, or `[]` when absent. -/
def spsAt (c : Container) (i : ℕ) : List LocSpectrum :=
  match clookup c (CKey.sps i) with
  | some (CVal.spsColl l) => l
  | _ => []

/-- The body of the `readSpectra` loop (source lines 567-703), threading the
container, the entry counter `specNum` and the running aggregate collection
`spectra_all`.  The data line is added to the per-entry collection and to
the aggregate BEFORE the payload size check, exactly as in the source; on a
size mismatch the per-entry collection is simply never stored in the
container, while the aggregate keeps the (unfilled) data line. -/
def readSpectraAux (cont : Container) (nodes : List SpecNode)
    (specNum : ℕ) (allSpectra : List LocSpectrum) : Container × List LocSpectrum :=
  match nodes with
  | [] => (cont, allSpectra)
  | SpecNode.otherElem :: rest => readSpectraAux cont rest specNum allSpectra
  | SpecNode.ir e :: rest =>
    let n := specNum + 1
    if e.numDataPoints < 1 then readSpectraAux cont rest n allSpectra
    else
      let sizeOk := e.decodedSize = 4 * e.numDataPoints
      let dl0 := mkDataLine e.numDataPoints e.startWavenum e.endWavenum
      let dl := { dl0 with ydata := if sizeOk then some e.sample else none }
      let ls : LocSpectrum := ⟨dl, e.locationX * micron, e.locationY * micron⟩
      if sizeOk then
        readSpectraAux (cset cont (CKey.sps n) (CVal.spsColl [ls])) rest n
          (allSpectra ++ [ls])
      else
        readSpectraAux cont rest n (allSpectra ++ [ls])

/-- `readSpectra` (source lines 535-705): processes every element child and
finally stores the aggregate collection at `/sps/0` (line 704). -/
def readSpectra (cont : Container) (nodes : List SpecNode) : Container :=
  let r := readSpectraAux cont nodes 0 []
  cset r.1 (CKey.sps 0) (CVal.spsColl r.2)

/-- The channel loop of `readHeightMaps` (source lines 197-532), threading
the container, the per-call image counter `imageNum` and the valid-image
counter.  `imageNum` is incremented for every element child (line 201),
also for skipped channels. -/
def readHeightMapsAux (rot : Grid → ℚ → Grid) (cont : Container)
    (cs : List Channel) (imageNum valid : ℕ) : Container × ℕ :=
  match cs with
  | [] => (cont, valid)
  | c :: rest =>
    let n := imageNum + 1
    match processChannel rot c with
    | ChannelOutcome.skippedZeroRes => readHeightMapsAux rot cont rest n valid
    | ChannelOutcome.skippedSizeMismatch _ _ => readHeightMapsAux rot cont rest n valid
    | ChannelOutcome.ok p rotated title rtitle =>
      let cont1 := cset (cset cont (CKey.data n) (CVal.img p))
                        (CKey.dataTitle n) (CVal.title title)
      let cont2 :=
        match rotated, rtitle with
        | some rg, some rt =>
          cset (cset cont1 (CKey.data (1000000 + n)) (CVal.img rg))
               (CKey.dataTitle (1000000 + n)) (CVal.title rt)
        | _, _ => cont1
      readHeightMapsAux rot cont2 rest n (valid + 1)

/-- `readHeightMaps` (source lines 156-533): returns the updated container
and the number of valid images of this call. -/
def readHeightMaps (rot : Grid → ℚ → Grid) (cont : Container)
    (cs : List Channel) : Container × ℕ :=
  readHeightMapsAux rot cont cs 0 0

/-- A top-level element child of the document root: a `HeightMaps` section,
a `RenderedSpectra` section, or an element of another name (ignored). -/
inductive DocSection where
  | heightMaps (cs : List Channel) : DocSection
  | renderedSpectra (ns : List SpecNode) : DocSection
  | otherSection : DocSection

/-- The section loop of `anasys_load` (source lines 134-145): a `HeightMaps`
section REPLACES the `valid_images` counter with its own count
(`valid_images = readHeightMaps(...)`), a `RenderedSpectra` section only
updates the container. -/
def processSections (rot : Grid → ℚ → Grid) (secs : List DocSection) : Container × ℕ :=
  secs.foldl
    (fun acc s =>
      match s with
      | DocSection.heightMaps cs => readHeightMaps rot acc.1 cs
      | DocSection.renderedSpectra ns => (readSpectra acc.1 ns, acc.2)
      | DocSection.otherSection => acc)
    ([], 0)

/-- The root element of the parsed document, with its two attributes
(`none` models a missing attribute, where `xmlGetProp` returns NULL). -/
structure RootElem where
  name : String
  docType : Option String
  version : Option String
  children : List DocSection

/-- A parsed document; `root = none` models `xmlDocGetRootElement`
returning NULL (unparseable input). -/
structure XDoc where
  root : Option RootElem

/-- `xmlStrEqual` against a literal, as a C int (NULL compares unequal). -/
def xmlStrEqualLit (a : Option String) (b : String) : ℤ :=
  if a = some b then 1 else 0

/-- The document-type check of `anasys_load` (source lines 124-125): the
load is rejected when `xmlStrEqual(DocType,"IR") - xmlStrEqual(Version,"1.0")`
is nonzero, i.e. when exactly one of the two attributes matches. -/
def docTypeCheckFails (dt v : Option String) : Bool :=
  decide (xmlStrEqualLit dt "IR" - xmlStrEqualLit v "1.0" ≠ 0)

/-- Result of `anasys_load`.  `crash` models the undefined behaviour of
source line 134, where `rootElement->children` is dereferenced even when
`rootElement` is NULL. -/
inductive LoadResult where
  | ok (c : Container) : LoadResult
  | errFileType : LoadResult
  | errNoData : LoadResult
  | crash : LoadResult

/-- `anasys_load` (source lines 105-154). -/
def anasys_load (rot : Grid → ℚ → Grid) (d : XDoc) : LoadResult :=
  match d.root with
  | none => LoadResult.crash
  | some r =>
    if r.name = "Document" ∧ docTypeCheckFails r.docType r.version = true then
      LoadResult.errFileType
    else
      let pr := processSections rot r.children
      if pr.2 = 0 then LoadResult.errNoData else LoadResult.ok pr.1

/-- Number of channels of a list that produce a valid image. -/
def countValidChannels (rot : Grid → ℚ → Grid) (cs : List Channel) : ℕ :=
  (cs.filter (fun c => (processChannel rot c).isOkB)).length

/-- The `valid_images` value left after the section loop: the count of the
LAST `HeightMaps` section processed (0 when there is none), since each
section's count replaces the previous one. -/
def finalValidImages (rot : Grid → ℚ → Grid) (secs : List DocSection) : ℕ :=
  secs.foldl
    (fun v s =>
      match s with
      | DocSection.heightMaps cs => countValidChannels rot cs
      | _ => v)
    0

/-- Stated from the claim's words (for comparison with the source's
behaviour): the TOTAL number of valid raster images produced across all
`HeightMaps` sections of a document. -/
def specTotalValidImages (rot : Grid → ℚ → Grid) (secs : List DocSection) : ℕ :=
  (secs.map
    (fun s =>
      match s with
      | DocSection.heightMaps cs => countValidChannels rot cs
      | _ => 0)).sum

/-- Index map of the vertical flip on an `m` x `n` rectangle. -/
def flipVIdx (m n : ℕ) (p : Fin m × Fin n) : Fin m × Fin n :=
  (⟨m - 1 - p.1.val, by have := p.1.isLt; omega⟩, p.2)

/-- Index map of the horizontal flip on an `m` x `n` rectangle. -/
def flipHIdx (m n : ℕ) (p : Fin m × Fin n) : Fin m × Fin n :=
  (p.1, ⟨n - 1 - p.2.val, by have := p.2.isLt; omega⟩)

/-- Index map of the 90-degree case (vertical flip after the exact
counterclockwise rotation): plain transposition. -/
def transposeIdx (m n : ℕ) (p : Fin m × Fin n) : Fin n × Fin m :=
  (p.2, p.1)

/-- Index map of the minus-90-degree case (vertical flip after the exact
clockwise rotation): transposition composed with both flips. -/
def antitransposeIdx (m n : ℕ) (p : Fin m × Fin n) : Fin n × Fin m :=
  (⟨n - 1 - p.2.val, by have := p.2.isLt; omega⟩,
   ⟨m - 1 - p.1.val, by have := p.1.isLt; omega⟩)

/-- A concrete valid channel: 1x1 resolution, 4-byte payload, angle 0. -/
def chGood : Channel :=
  { label := "t", posX := 0, posY := 0, rangeX := 1, rangeY := 1,
    scanAngle := 0, zUnitMult := 1, resolutionX := 1, resolutionY := 1,
    decodedSize := 4, sample := fun _ => 0 }

/-- A concrete bad channel: 1x1 resolution but a 3-byte payload. -/
def chBad : Channel :=
  { label := "b", posX := 0, posY := 0, rangeX := 1, rangeY := 1,
    scanAngle := 0, zUnitMult := 1, resolutionX := 1, resolutionY := 1,
    decodedSize := 3, sample := fun _ => 0 }

/-- A concrete 2x3-resolution channel at scan angle 90. -/
def ch90 : Channel :=
  { label := "n", posX := 10, posY := 20, rangeX := 2, rangeY := 3,
    scanAngle := 90, zUnitMult := 1, resolutionX := 2, resolutionY := 3,
    decodedSize := 24, sample := fun k => (k : ℚ) }

/-- A concrete channel at the oblique scan angle 45. -/
def ch45 : Channel :=
  { label := "q", posX := 10, posY := 20, rangeX := 2, rangeY := 3,
    scanAngle := 45, zUnitMult := 1, resolutionX := 1, resolutionY := 1,
    decodedSize := 4, sample := fun _ => 0 }

/-- A concrete spectrum entry whose payload size mismatches: 2 data points
but a 4-byte payload. -/
def specBad : SpecEntry :=
  { label := "s", numDataPoints := 2, startWavenum := 0, endWavenum := 1,
    locationX := 0, locationY := 0, decodedSize := 4, sample := fun _ => 0 }

/-- A concrete spectrum entry with exactly one data point. -/
def specOne : SpecEntry :=
  { label := "o", numDataPoints := 1, startWavenum := 1000, endWavenum := 2000,
    locationX := 3, locationY := 4, decodedSize := 4, sample := fun k => (k : ℚ) }

theorem normAngleSub_le (a : ℚ) : normAngleSub a ≤ 180 := by
  induction a using normAngleSub.induct with
  | case1 a h ih => rw [normAngleSub, dif_pos h]; exact ih
  | case2 a h => rw [normAngleSub, dif_neg h]; linarith

theorem normAngleSub_id (a : ℚ) (h : a ≤ 180) : normAngleSub a = a := by
  rw [normAngleSub, dif_neg (by linarith)]

theorem normAngleAdd_gt (a : ℚ) : -180 < normAngleAdd a := by
  induction a using normAngleAdd.induct with
  | case1 a h ih => rw [normAngleAdd, dif_pos h]; exact ih
  | case2 a h => rw [normAngleAdd, dif_neg h]; linarith

theorem normAngleAdd_le (a : ℚ) (h : a ≤ 180) : normAngleAdd a ≤ 180 := by
  induction a using normAngleAdd.induct with
  | case1 a h2 ih => rw [normAngleAdd, dif_pos h2]; exact ih (by linarith)
  | case2 a h2 => rw [normAngleAdd, dif_neg h2]; exact h

theorem normAngleAdd_id (a : ℚ) (h : -180 < a) : normAngleAdd a = a := by
  rw [normAngleAdd, dif_neg (by linarith)]

theorem normAngle_gt (a : ℚ) : -180 < normAngle a := normAngleAdd_gt _

theorem normAngle_le (a : ℚ) : normAngle a ≤ 180 :=
  normAngleAdd_le _ (normAngleSub_le a)

theorem normAngle_idem (a : ℚ) : normAngle (normAngle a) = normAngle a := by
  unfold normAngle
  rw [normAngleSub_id _ (normAngleAdd_le _ (normAngleSub_le a)),
      normAngleAdd_id _ (normAngleAdd_gt _)]

theorem readDigitsAux_nondigit (l : List Char)
    (h : ∀ ch ∈ l, ch.isDigit = false) : readDigitsAux l 0 0 = (0, 0, l) := by
  cases l with
  | nil => rfl
  | cons ch rest =>
    have hch : ch.isDigit = false := h ch (List.mem_cons_self ch rest)
    rw [readDigitsAux, if_neg (by rw [hch]; exact Bool.false_ne_true)]

theorem fracPart_nondigit (l : List Char)
    (h : ∀ ch ∈ l, ch.isDigit = false) : fracPart l = (0, 0) := by
  cases l with
  | nil => rfl
  | cons ch rest =>
    rw [fracPart]
    by_cases hdot : ch = '.'
    · rw [if_pos hdot]
      have hrest : ∀ c2 ∈ rest, c2.isDigit = false := by
        intro c2 hm; exact h c2 (List.mem_cons_of_mem ch hm)
      rw [readDigitsAux_nondigit rest hrest]
    · rw [if_neg hdot]

theorem stripSign_subset (l : List Char) : (stripSign l).2 ⊆ l := by
  cases l with
  | nil => simp [stripSign]
  | cons ch rest =>
    rw [stripSign]
    by_cases h1 : ch = '-'
    · rw [if_pos h1]; exact List.subset_cons_self ch rest
    · rw [if_neg h1]
      by_cases h2 : ch = '+'
      · rw [if_pos h2]; exact List.subset_cons_self ch rest
      · rw [if_neg h2]; exact fun a ha => ha

theorem parseLeadingNumber_nondigit (cs : List Char)
    (h : ∀ ch ∈ cs, ch.isDigit = false) : parseLeadingNumber cs = 0 := by
  have hdrop : ∀ ch ∈ cs.dropWhile (fun c2 => c2 = ' '), ch.isDigit = false := by
    intro ch hm
    exact h ch ((List.dropWhile_suffix _).sublist.subset hm)
  have hsr : ∀ ch ∈ (stripSign (cs.dropWhile (fun c2 => c2 = ' '))).2,
      ch.isDigit = false := by
    intro ch hm
    exact hdrop ch (stripSign_subset _ hm)
  simp only [parseLeadingNumber, readDigitsAux_nondigit _ hsr,
    fracPart_nondigit _ hsr, if_pos]

/-- C7: for a tag named ScanAngle, the leading numeric token of the Value is
parsed and normalized into (-180, 180] by repeatedly adding/subtracting 360;
the normalization is idempotent; a Value without a space (hence without a
space-delimited numeric token), or one whose characters contain no digit at
all, yields the default angle 0. -/
theorem scanAngle_parse_normalize (q : ℚ) (cs : List Char) :
    (-180 < normAngle q ∧ normAngle q ≤ 180) ∧
    normAngle (normAngle q) = normAngle q ∧
    (cs.contains ' ' = false → scanAngleOfValue cs = 0) ∧
    (cs.contains ' ' = true →
      scanAngleOfValue cs = normAngle (parseLeadingNumber cs)) ∧
    ((∀ ch ∈ cs, ch.isDigit = false) → scanAngleOfValue cs = 0) := by
  refine ⟨⟨normAngle_gt q, normAngle_le q⟩, normAngle_idem q, ?_, ?_, ?_⟩
  · intro h
    rw [scanAngleOfValue, if_neg (by rw [h]; exact Bool.false_ne_true)]
  · intro h
    rw [scanAngleOfValue, if_pos h]
  · intro h
    rw [scanAngleOfValue]
    by_cases hs : cs.contains ' ' = true
    · rw [if_pos hs, parseLeadingNumber_nondigit cs h]
      rw [normAngle, normAngleSub_id 0 (by norm_num), normAngleAdd_id 0 (by norm_num)]
    · rw [if_neg hs]

/-- Witness for C7 at concrete inputs: the Value "45 deg" parses to 45 and
normalizes within range; a space-free Value and a digit-free Value give 0. -/
theorem scanAngle_parse_normalize_witness :
    (-180 < normAngle 450 ∧ normAngle 450 ≤ 180) ∧
    normAngle (normAngle 450) = normAngle 450 ∧
    scanAngleOfValue ['4', '5'] = 0 ∧
    scanAngleOfValue ['4', '5', ' ', 'd'] =
      normAngle (parseLeadingNumber ['4', '5', ' ', 'd']) ∧
    scanAngleOfValue ['a', 'b', ' ', 'c'] = 0 := by
  obtain ⟨h1, h2, h3, h4, h5⟩ :=
    scanAngle_parse_normalize 450 ['4', '5', ' ', 'd']
  obtain ⟨_, _, h6, _, _⟩ := scanAngle_parse_normalize 450 ['4', '5']
  obtain ⟨_, _, _, _, h7⟩ := scanAngle_parse_normalize 450 ['a', 'b', ' ', 'c']
  exact ⟨h1, h2, h6 (by decide), h4 (by decide), h7 (by decide)⟩

theorem processChannel_angle0 (rot : Grid → ℚ → Grid) (c : Channel)
    (hb : c.resolutionX * c.resolutionY < u32mod)
    (hpos : 0 < c.resolutionX * c.resolutionY)
    (hsz : c.decodedSize = 4 * (c.resolutionX * c.resolutionY))
    (ha : c.scanAngle = 0) :
    processChannel rot c = ChannelOutcome.ok
      (setOffsets (vflip (initField c)) ((c.posX - 1/2 * c.rangeX) * micron)
        ((c.posY - 1/2 * c.rangeY) * micron)) none c.label none := by
  simp only [processChannel]
  rw [Nat.mod_eq_of_lt hb, if_neg (by omega), if_neg (by omega), if_pos ha]

theorem processChannel_angle180 (rot : Grid → ℚ → Grid) (c : Channel)
    (hb : c.resolutionX * c.resolutionY < u32mod)
    (hpos : 0 < c.resolutionX * c.resolutionY)
    (hsz : c.decodedSize = 4 * (c.resolutionX * c.resolutionY))
    (ha : c.scanAngle = 180) :
    processChannel rot c = ChannelOutcome.ok
      (setOffsets (hflip (initField c)) ((c.posX - 1/2 * c.rangeX) * micron)
        ((c.posY - 1/2 * c.rangeY) * micron)) none c.label none := by
  simp only [processChannel]
  rw [Nat.mod_eq_of_lt hb, if_neg (by omega), if_neg (by omega), ha,
    if_neg (by norm_num), if_pos rfl]

theorem processChannel_angle90 (rot : Grid → ℚ → Grid) (c : Channel)
    (hb : c.resolutionX * c.resolutionY < u32mod)
    (hpos : 0 < c.resolutionX * c.resolutionY)
    (hsz : c.decodedSize = 4 * (c.resolutionX * c.resolutionY))
    (ha : c.scanAngle = 90) :
    processChannel rot c = ChannelOutcome.ok
      (setOffsets (vflip (rot90ccw (initField c)))
        ((c.posX - 1/2 * c.rangeY) * micron)
        ((c.posY - 1/2 * c.rangeX) * micron)) none c.label none := by
  simp only [processChannel]
  rw [Nat.mod_eq_of_lt hb, if_neg (by omega), if_neg (by omega), ha,
    if_neg (by norm_num), if_neg (by norm_num), if_pos rfl]

theorem processChannel_angleM90 (rot : Grid → ℚ → Grid) (c : Channel)
    (hb : c.resolutionX * c.resolutionY < u32mod)
    (hpos : 0 < c.resolutionX * c.resolutionY)
    (hsz : c.decodedSize = 4 * (c.resolutionX * c.resolutionY))
    (ha : c.scanAngle = -90) :
    processChannel rot c = ChannelOutcome.ok
      (setOffsets (vflip (rot90cw (initField c)))
        ((c.posX - 1/2 * c.rangeY) * micron)
        ((c.posY - 1/2 * c.rangeX) * micron)) none c.label none := by
  simp only [processChannel]
  rw [Nat.mod_eq_of_lt hb, if_neg (by omega), if_neg (by omega), ha,
    if_neg (by norm_num), if_neg (by norm_num), if_neg (by norm_num), if_pos rfl]

theorem processChannel_oblique (rot : Grid → ℚ → Grid) (c : Channel)
    (hb : c.resolutionX * c.resolutionY < u32mod)
    (hpos : 0 < c.resolutionX * c.resolutionY)
    (hsz : c.decodedSize = 4 * (c.resolutionX * c.resolutionY))
    (ha : ¬canonicalAngle c.scanAngle) :
    processChannel rot c = ChannelOutcome.ok
      (setOffsets (initField c) 1 1)
      (some (setOffsets (vflip (rot (initField c) c.scanAngle))
        (c.posX * micron - 1/2 * (vflip (rot (initField c) c.scanAngle)).xreal)
        (c.posY * micron - 1/2 * (vflip (rot (initField c) c.scanAngle)).yreal)))
      (c.label ++ " (Offset)") (some (c.label ++ " (Rotated)")) := by
  unfold canonicalAngle at ha
  push_neg at ha
  obtain ⟨h0, h180, h90, hm90⟩ := ha
  simp only [processChannel]
  rw [Nat.mod_eq_of_lt hb, if_neg (by omega), if_neg (by omega),
    if_neg h0, if_neg h180, if_neg h90, if_neg hm90]

theorem flipVIdx_invol (m n : ℕ) (p : Fin m × Fin n) :
    flipVIdx m n (flipVIdx m n p) = p := by
  obtain ⟨i, j⟩ := p
  have hi := i.isLt
  simp only [flipVIdx, Prod.mk.injEq, Fin.ext_iff]
  refine ⟨by omega, ?_⟩
  trivial

theorem flipVIdx_bijective (m n : ℕ) : Function.Bijective (flipVIdx m n) :=
  Function.Involutive.bijective (flipVIdx_invol m n)

theorem flipHIdx_invol (m n : ℕ) (p : Fin m × Fin n) :
    flipHIdx m n (flipHIdx m n p) = p := by
  obtain ⟨i, j⟩ := p
  have hj := j.isLt
  simp only [flipHIdx, Prod.mk.injEq, Fin.ext_iff]
  refine ⟨?_, by omega⟩
  trivial

theorem flipHIdx_bijective (m n : ℕ) : Function.Bijective (flipHIdx m n) :=
  Function.Involutive.bijective (flipHIdx_invol m n)

theorem transposeIdx_bijective (m n : ℕ) : Function.Bijective (transposeIdx m n) :=
  Function.bijective_iff_has_inverse.mpr
    ⟨transposeIdx n m, fun _ => rfl, fun _ => rfl⟩

theorem antitransposeIdx_cancel (m n : ℕ) (p : Fin m × Fin n) :
    antitransposeIdx n m (antitransposeIdx m n p) = p := by
  obtain ⟨i, j⟩ := p
  have hi := i.isLt
  have hj := j.isLt
  simp only [antitransposeIdx, Prod.mk.injEq, Fin.ext_iff]
  exact ⟨by omega, by omega⟩

theorem antitransposeIdx_bijective (m n : ℕ) :
    Function.Bijective (antitransposeIdx m n) :=
  Function.bijective_iff_has_inverse.mpr
    ⟨antitransposeIdx n m, antitransposeIdx_cancel m n, antitransposeIdx_cancel n m⟩

/-- C6: for a valid channel at a canonical scan angle the raster transform
is a pure permutation of sample positions: angle 0 is exactly the vertical
flip at resolution (sizeX, sizeY) and extents (rangeX, rangeY); angle 180
exactly the horizontal flip at the same dimensions; angles 90 and -90 are
the two opposite exact 90-degree rotations followed by the vertical flip,
with resolutions and extents swapped (the composites are the transposition
and the anti-transposition); each index correspondence is a bijection of
the sample rectangles. -/
theorem processChannel_canonical_permutation (rot : Grid → ℚ → Grid) (c : Channel)
    (hb : c.resolutionX * c.resolutionY < u32mod)
    (hpos : 0 < c.resolutionX * c.resolutionY)
    (hsz : c.decodedSize = 4 * (c.resolutionX * c.resolutionY)) :
    (c.scanAngle = 0 →
      (processChannel rot c).rotated = none ∧
      (processChannel rot c).primary.xres = c.resolutionX ∧
      (processChannel rot c).primary.yres = c.resolutionY ∧
      (processChannel rot c).primary.xreal = c.rangeX * micron ∧
      (processChannel rot c).primary.yreal = c.rangeY * micron ∧
      ∀ i j, i < c.resolutionY → j < c.resolutionX →
        (processChannel rot c).primary.data i j =
          (initField c).data (c.resolutionY - 1 - i) j) ∧
    (c.scanAngle = 180 →
      (processChannel rot c).rotated = none ∧
      (processChannel rot c).primary.xres = c.resolutionX ∧
      (processChannel rot c).primary.yres = c.resolutionY ∧
      (processChannel rot c).primary.xreal = c.rangeX * micron ∧
      (processChannel rot c).primary.yreal = c.rangeY * micron ∧
      ∀ i j, i < c.resolutionY → j < c.resolutionX →
        (processChannel rot c).primary.data i j =
          (initField c).data i (c.resolutionX - 1 - j)) ∧
    (c.scanAngle = 90 →
      (processChannel rot c).rotated = none ∧
      (processChannel rot c).primary.xres = c.resolutionY ∧
      (processChannel rot c).primary.yres = c.resolutionX ∧
      (processChannel rot c).primary.xreal = c.rangeY * micron ∧
      (processChannel rot c).primary.yreal = c.rangeX * micron ∧
      ∀ i j, i < c.resolutionX → j < c.resolutionY →
        (processChannel rot c).primary.data i j = (initField c).data j i) ∧
    (c.scanAngle = -90 →
      (processChannel rot c).rotated = none ∧
      (processChannel rot c).primary.xres = c.resolutionY ∧
      (processChannel rot c).primary.yres = c.resolutionX ∧
      (processChannel rot c).primary.xreal = c.rangeY * micron ∧
      (processChannel rot c).primary.yreal = c.rangeX * micron ∧
      ∀ i j, i < c.resolutionX → j < c.resolutionY →
        (processChannel rot c).primary.data i j =
          (initField c).data (c.resolutionY - 1 - j) (c.resolutionX - 1 - i)) ∧
    Function.Bijective (flipVIdx c.resolutionY c.resolutionX) ∧
    Function.Bijective (flipHIdx c.resolutionY c.resolutionX) ∧
    Function.Bijective (transposeIdx c.resolutionX c.resolutionY) ∧
    Function.Bijective (antitransposeIdx c.resolutionX c.resolutionY) := by
  refine ⟨?_, ?_, ?_, ?_, flipVIdx_bijective _ _, flipHIdx_bijective _ _,
    transposeIdx_bijective _ _, antitransposeIdx_bijective _ _⟩
  · intro ha
    rw [processChannel_angle0 rot c hb hpos hsz ha]
    refine ⟨rfl, rfl, rfl, rfl, rfl, ?_⟩
    intro i j hi hj
    rfl
  · intro ha
    rw [processChannel_angle180 rot c hb hpos hsz ha]
    refine ⟨rfl, rfl, rfl, rfl, rfl, ?_⟩
    intro i j hi hj
    rfl
  · intro ha
    rw [processChannel_angle90 rot c hb hpos hsz ha]
    refine ⟨rfl, rfl, rfl, rfl, rfl, ?_⟩
    intro i j hi hj
    show (initField c).data j (c.resolutionX - 1 - (c.resolutionX - 1 - i)) =
      (initField c).data j i
    congr 1
    omega
  · intro ha
    rw [processChannel_angleM90 rot c hb hpos hsz ha]
    refine ⟨rfl, rfl, rfl, rfl, rfl, ?_⟩
    intro i j hi hj
    rfl

/-- Witness for C6 at a concrete 2x3 channel at scan angle 90: resolutions
swap and the output value at (1,2) is the transposed input value at (2,1). -/
theorem processChannel_canonical_permutation_witness :
    (processChannel trivRot ch90).primary.xres = 3 ∧
    (processChannel trivRot ch90).primary.yres = 2 ∧
    (processChannel trivRot ch90).rotated = none ∧
    (processChannel trivRot ch90).primary.data 1 2 = (initField ch90).data 2 1 := by
  obtain ⟨-, -, h90, -, -⟩ :=
    processChannel_canonical_permutation trivRot ch90 (by decide) (by decide)
      (by decide)
  obtain ⟨hrot, hx, hy, -, -, hpt⟩ := h90 (by decide)
  exact ⟨hx, hy, hrot, hpt 1 2 (by decide) (by decide)⟩

/-- C5: for a valid channel at a canonical scan angle the single emitted
raster's x/y offsets equal (position - 0.5 x extent) x 1e-6 with the extent
expressed in micrometres (extent_um = xreal x 1e6); for an oblique angle the
un-rotated raster's offsets are the fixed sentinels (1, 1) while the rotated
raster's offsets follow the same rule computed with the rotated raster's own
extents. -/
theorem processChannel_offsets (rot : Grid → ℚ → Grid) (c : Channel)
    (hb : c.resolutionX * c.resolutionY < u32mod)
    (hpos : 0 < c.resolutionX * c.resolutionY)
    (hsz : c.decodedSize = 4 * (c.resolutionX * c.resolutionY)) :
    (canonicalAngle c.scanAngle →
      (processChannel rot c).rotated = none ∧
      (processChannel rot c).primary.xoff =
        (c.posX - 1/2 * ((processChannel rot c).primary.xreal * 1000000)) * micron ∧
      (processChannel rot c).primary.yoff =
        (c.posY - 1/2 * ((processChannel rot c).primary.yreal * 1000000)) * micron) ∧
    (¬canonicalAngle c.scanAngle →
      (processChannel rot c).primary.xoff = 1 ∧
      (processChannel rot c).primary.yoff = 1 ∧
      (processChannel rot c).rotated = some ((processChannel rot c).rotGrid) ∧
      (processChannel rot c).rotGrid.xoff =
        (c.posX - 1/2 * ((processChannel rot c).rotGrid.xreal * 1000000)) * micron ∧
      (processChannel rot c).rotGrid.yoff =
        (c.posY - 1/2 * ((processChannel rot c).rotGrid.yreal * 1000000)) * micron) := by
  constructor
  · intro ha
    rcases ha with h | h | h | h
    · rw [processChannel_angle0 rot c hb hpos hsz h]
      refine ⟨rfl, ?_, ?_⟩ <;>
        · simp only [ChannelOutcome.primary, setOffsets, vflip, initField, micron]
          ring
    · rw [processChannel_angle180 rot c hb hpos hsz h]
      refine ⟨rfl, ?_, ?_⟩ <;>
        · simp only [ChannelOutcome.primary, setOffsets, hflip, initField, micron]
          ring
    · rw [processChannel_angle90 rot c hb hpos hsz h]
      refine ⟨rfl, ?_, ?_⟩ <;>
        · simp only [ChannelOutcome.primary, setOffsets, vflip, rot90ccw, initField,
            micron]
          ring
    · rw [processChannel_angleM90 rot c hb hpos hsz h]
      refine ⟨rfl, ?_, ?_⟩ <;>
        · simp only [ChannelOutcome.primary, setOffsets, vflip, rot90cw, initField,
            micron]
          ring
  · intro ha
    rw [processChannel_oblique rot c hb hpos hsz ha]
    refine ⟨rfl, rfl, rfl, ?_, ?_⟩ <;>
      · simp only [ChannelOutcome.rotGrid, setOffsets, vflip, micron]
        ring

/-- Witness for C5 at a concrete channel at the oblique angle 45: the
un-rotated raster carries the sentinel offsets and the rotated raster the
position-and-extent rule. -/
theorem processChannel_offsets_witness :
    (processChannel trivRot ch45).primary.xoff = 1 ∧
    (processChannel trivRot ch45).primary.yoff = 1 ∧
    (processChannel trivRot ch45).rotGrid.xoff =
      (ch45.posX - 1/2 * ((processChannel trivRot ch45).rotGrid.xreal * 1000000))
        * micron ∧
    (processChannel trivRot ch45).rotGrid.yoff =
      (ch45.posY - 1/2 * ((processChannel trivRot ch45).rotGrid.yreal * 1000000))
        * micron := by
  obtain ⟨-, hob⟩ :=
    processChannel_offsets trivRot ch45 (by decide) (by decide) (by decide)
  obtain ⟨h1, h2, -, h3, h4⟩ := hob (by decide)
  exact ⟨h1, h2, h3, h4⟩

/-- C3: a channel whose resolution product is 0, or whose decoded byte
length differs from 4 x (resolutionX x resolutionY), is skipped: it
produces no valid image, in the byte-length case a SizeMismatchError
carrying the expected and actual byte counts is signalled, and the loop of
`readHeightMaps` continues with the next channel from an unchanged state —
one bad channel never aborts the import. -/
theorem badChannel_skipped (rot : Grid → ℚ → Grid) (c : Channel)
    (hb : c.resolutionX * c.resolutionY < u32mod)
    (hbad : c.resolutionX * c.resolutionY = 0 ∨
            c.decodedSize ≠ 4 * (c.resolutionX * c.resolutionY)) :
    (processChannel rot c).isOkB = false ∧
    (c.resolutionX * c.resolutionY = 0 →
      processChannel rot c = ChannelOutcome.skippedZeroRes) ∧
    (0 < c.resolutionX * c.resolutionY →
      c.decodedSize ≠ 4 * (c.resolutionX * c.resolutionY) →
      4 * (c.resolutionX * c.resolutionY) < u32mod → c.decodedSize < u32mod →
      processChannel rot c = ChannelOutcome.skippedSizeMismatch
        (4 * (c.resolutionX * c.resolutionY)) c.decodedSize) ∧
    (∀ cont cs n v, readHeightMapsAux rot cont (c :: cs) n v =
      readHeightMapsAux rot cont cs (n + 1) v) := by
  have hfalse : (processChannel rot c).isOkB = false := by
    simp only [processChannel]
    rw [Nat.mod_eq_of_lt hb]
    rcases hbad with h | h
    · rw [if_pos (by omega)]
      rfl
    · by_cases hz : c.resolutionX * c.resolutionY < 1
      · rw [if_pos hz]; rfl
      · rw [if_neg hz, if_pos h]; rfl
  refine ⟨hfalse, ?_, ?_, ?_⟩
  · intro h0
    simp only [processChannel]
    rw [Nat.mod_eq_of_lt hb, if_pos (by omega)]
  · intro hz hne h4 hd
    simp only [processChannel]
    rw [Nat.mod_eq_of_lt hb, if_neg (by omega), if_pos hne,
      Nat.mod_eq_of_lt h4, Nat.mod_eq_of_lt hd]
  · intro cont cs n v
    cases hout : processChannel rot c with
    | skippedZeroRes =>
      simp only [readHeightMapsAux, hout]
    | skippedSizeMismatch e a =>
      simp only [readHeightMapsAux, hout]
    | ok p r t rt =>
      rw [hout] at hfalse
      exact absurd hfalse (by simp [ChannelOutcome.isOkB])

/-- Witness for C3 at a concrete channel (1x1 resolution, 3-byte payload):
it is skipped with a SizeMismatchError carrying 4 expected and 3 actual
bytes, and the loop continues unchanged. -/
theorem badChannel_skipped_witness :
    (processChannel trivRot chBad).isOkB = false ∧
    processChannel trivRot chBad = ChannelOutcome.skippedSizeMismatch 4 3 ∧
    readHeightMapsAux trivRot [] [chBad] 0 0 = readHeightMapsAux trivRot [] [] 1 0 := by
  obtain ⟨h1, -, h3, h4⟩ :=
    badChannel_skipped trivRot chBad (by decide) (Or.inr (by decide))
  exact ⟨h1, h3 (by decide) (by decide) (by decide) (by decide), h4 [] [] 0 0⟩

theorem qdiv_some (a b : ℚ) :
    qdiv (some a) (some b) = if b = 0 then none else some (a / b) := rfl

theorem qadd_some (a b : ℚ) : qadd (some a) (some b) = some (a + b) := rfl

theorem qadd_none (a : Option ℚ) : qadd a none = none := by cases a <;> rfl

theorem qmul_some (a b : ℚ) : qmul (some a) (some b) = some (a * b) := rfl

theorem qmul_none (a : Option ℚ) : qmul a none = none := by cases a <;> rfl

/-- C8: for a spectrum entry with at least two data points the built axis
has offset startWavenumber, per-sample spacing (end - start)/(N - 1), and
declared total length spacing x N. -/
theorem spectrum_axis (n : ℕ) (s e : ℚ) (h2 : 2 ≤ n) :
    (mkDataLine n s e).off = s ∧
    lineSpacing (mkDataLine n s e) = some ((e - s) / ((n : ℚ) - 1)) ∧
    (mkDataLine n s e).real = some ((e - s) / ((n : ℚ) - 1) * (n : ℚ)) := by
  have hn2 : (2 : ℚ) ≤ (n : ℚ) := by exact_mod_cast h2
  have hne : ((n : ℚ) - 1) ≠ 0 := by intro h; linarith
  have hn0 : ((n : ℚ)) ≠ 0 := by intro h; linarith
  have hreal : (mkDataLine n s e).real = some ((e - s) * (1 + 1 / ((n : ℚ) - 1))) := by
    show datalineReal n s e = _
    unfold datalineReal
    rw [qdiv_some, if_neg hne, qadd_some, qmul_some]
  refine ⟨rfl, ?_, ?_⟩
  · unfold lineSpacing
    rw [hreal]
    show some ((e - s) * (1 + 1 / ((n : ℚ) - 1)) / ((n : ℚ))) = _
    congr 1
    field_simp
    ring
  · rw [hreal]
    congr 1
    field_simp

/-- Witness for C8: N = 5, start = 1000, end = 2000 gives spacing 250 and
declared total length 1250. -/
theorem spectrum_axis_witness :
    (mkDataLine 5 1000 2000).off = 1000 ∧
    lineSpacing (mkDataLine 5 1000 2000) = some 250 ∧
    (mkDataLine 5 1000 2000).real = some 1250 := by
  obtain ⟨h1, h2, h3⟩ := spectrum_axis 5 1000 2000 (by norm_num)
  refine ⟨h1, ?_, ?_⟩
  · rw [h2]; norm_num
  · rw [h3]; norm_num

theorem clookup_cset_same (c : Container) (k : CKey) (v : CVal) :
    clookup (cset c k v) k = some v := by
  induction c with
  | nil => simp [cset, clookup]
  | cons kv rest ih =>
    obtain ⟨k2, v2⟩ := kv
    by_cases h : k2 = k
    · simp [cset, clookup, h]
    · simp [cset, clookup, h, ih]

theorem spsAt_cset (c : Container) (l : List LocSpectrum) (i : ℕ) :
    spsAt (cset c (CKey.sps i) (CVal.spsColl l)) i = l := by
  unfold spsAt
  rw [clookup_cset_same]

theorem spsAt_readSpectra (cont : Container) (nodes : List SpecNode) :
    spsAt (readSpectra cont nodes) 0 = (readSpectraAux cont nodes 0 []).2 := by
  unfold readSpectra
  exact spsAt_cset _ _ _

/-- C10: a spectrum entry with exactly one data point passes the N < 1
guard, so it is still processed (its data line reaches the aggregate
collection), and the declared total length formula divides by N - 1 = 0,
making the built line's declared length non-finite. -/
theorem spectrum_single_point (e2 : SpecEntry) (h1 : e2.numDataPoints = 1)
    (_hne : e2.endWavenum ≠ e2.startWavenum) :
    (mkDataLine e2.numDataPoints e2.startWavenum e2.endWavenum).real = none ∧
    spsAt (readSpectra [] [SpecNode.ir e2]) 0 =
      [⟨{ mkDataLine e2.numDataPoints e2.startWavenum e2.endWavenum with
            ydata := if e2.decodedSize = 4 * e2.numDataPoints
                     then some e2.sample else none },
         e2.locationX * micron, e2.locationY * micron⟩] := by
  constructor
  · show datalineReal e2.numDataPoints e2.startWavenum e2.endWavenum = none
    rw [h1]
    unfold datalineReal
    rw [qdiv_some, if_pos (by norm_num), qadd_none, qmul_none]
  · rw [spsAt_readSpectra]
    simp only [readSpectraAux]
    rw [if_neg (by omega)]
    by_cases hok : e2.decodedSize = 4 * e2.numDataPoints
    · simp only [if_pos hok, readSpectraAux, List.nil_append]
    · simp only [if_neg hok, readSpectraAux, List.nil_append]

/-- Witness for C10 at a concrete one-point entry (start 1000, end 2000):
the declared length is non-finite and the entry is still processed into the
aggregate collection. -/
theorem spectrum_single_point_witness :
    (mkDataLine specOne.numDataPoints specOne.startWavenum specOne.endWavenum).real
      = none ∧
    spsAt (readSpectra [] [SpecNode.ir specOne]) 0 =
      [⟨{ mkDataLine specOne.numDataPoints specOne.startWavenum specOne.endWavenum with
            ydata := if specOne.decodedSize = 4 * specOne.numDataPoints
                     then some specOne.sample else none },
         specOne.locationX * micron, specOne.locationY * micron⟩] :=
  spectrum_single_point specOne (by decide) (by decide)

/-- C4: a spectrum entry whose payload decodes to a byte length different
from 4 x DataPoints is skipped — its per-entry collection is never stored
in the container — BUT its data line was already added to the aggregate
collection before the size check, so the stored aggregate at index 0
retains the skipped entry's (never filled) spectrum.  This contradicts the
claim that such an entry's spectrum is added to no collection. -/
theorem readSpectra_sizeMismatch_in_aggregate :
    spsAt (readSpectra [] [SpecNode.ir specBad]) 0 =
      [⟨{ mkDataLine 2 0 1 with ydata := none }, 0, 0⟩] ∧
    clookup (readSpectra [] [SpecNode.ir specBad]) (CKey.sps 1) = none ∧
    specBad.decodedSize ≠ 4 * specBad.numDataPoints := by
  refine ⟨?_, rfl, by decide⟩
  rw [spsAt_readSpectra]
  simp [readSpectraAux, specBad, mkDataLine, datalineReal]

theorem readHeightMapsAux_count (rot : Grid → ℚ → Grid) (cs : List Channel) :
    ∀ cont n v, (readHeightMapsAux rot cont cs n v).2 =
      v + countValidChannels rot cs := by
  induction cs with
  | nil =>
    intro cont n v
    simp [readHeightMapsAux, countValidChannels]
  | cons c rest ih =>
    intro cont n v
    cases hout : processChannel rot c with
    | skippedZeroRes =>
      simp [readHeightMapsAux, hout, ih, countValidChannels,
        List.filter_cons, ChannelOutcome.isOkB]
    | skippedSizeMismatch ex ac =>
      simp [readHeightMapsAux, hout, ih, countValidChannels,
        List.filter_cons, ChannelOutcome.isOkB]
    | ok p r t rt =>
      simp [readHeightMapsAux, hout, ih, countValidChannels,
        List.filter_cons, ChannelOutcome.isOkB]
      omega

theorem processSectionsAux_snd (rot : Grid → ℚ → Grid) (secs : List DocSection) :
    ∀ (cont : Container) (v : ℕ),
      (secs.foldl
        (fun acc s =>
          match s with
          | DocSection.heightMaps cs => readHeightMaps rot acc.1 cs
          | DocSection.renderedSpectra ns => (readSpectra acc.1 ns, acc.2)
          | DocSection.otherSection => acc)
        (cont, v)).2 =
      secs.foldl
        (fun v2 s =>
          match s with
          | DocSection.heightMaps cs => countValidChannels rot cs
          | _ => v2)
        v := by
  induction secs with
  | nil => intro cont v; rfl
  | cons s rest ih =>
    intro cont v
    cases s with
    | heightMaps cs =>
      simp only [List.foldl_cons]
      rw [show readHeightMaps rot cont cs =
          ((readHeightMaps rot cont cs).1, countValidChannels rot cs) from
        Prod.ext_iff.mpr ⟨rfl, by
          simpa using readHeightMapsAux_count rot cs cont 0 0⟩]
      exact ih _ _
    | renderedSpectra ns =>
      simp only [List.foldl_cons]
      exact ih _ _
    | otherSection =>
      simp only [List.foldl_cons]
      exact ih _ _

/-- The `valid_images` value after the section loop is the valid-image
count of the last `HeightMaps` section (0 when there is none). -/
theorem processSections_snd (rot : Grid → ℚ → Grid) (secs : List DocSection) :
    (processSections rot secs).2 = finalValidImages rot secs :=
  processSectionsAux_snd rot secs [] 0

theorem anasys_load_eq (rot : Grid → ℚ → Grid) (r : RootElem)
    (hval : ¬(r.name = "Document" ∧ docTypeCheckFails r.docType r.version = true)) :
    anasys_load rot ⟨some r⟩ =
      (if (processSections rot r.children).2 = 0 then LoadResult.errNoData
       else LoadResult.ok (processSections rot r.children).1) := by
  simp only [anasys_load]
  rw [if_neg hval]

/-- C2 (amended): once validation passes, the import fails with NoDataError
exactly when the `valid_images` value left by the section loop — the count
of the LAST processed `HeightMaps` section, 0 when there is none — is zero,
regardless of any spectra stored in the container; otherwise the
accumulated container is returned as success. -/
theorem anasys_load_noData_iff (rot : Grid → ℚ → Grid) (r : RootElem)
    (hval : ¬(r.name = "Document" ∧ docTypeCheckFails r.docType r.version = true)) :
    (anasys_load rot ⟨some r⟩ = LoadResult.errNoData ↔
      finalValidImages rot r.children = 0) ∧
    (finalValidImages rot r.children ≠ 0 →
      anasys_load rot ⟨some r⟩ = LoadResult.ok (processSections rot r.children).1) := by
  rw [anasys_load_eq rot r hval, ← processSections_snd rot r.children]
  constructor
  · constructor
    · intro h
      by_contra hnz
      rw [if_neg hnz] at h
      exact LoadResult.noConfusion h
    · intro h
      rw [if_pos h]
  · intro h
    rw [if_neg h]

/-- Witness for the amended C2: a validated document with no sections has
zero valid images and the load returns NoDataError. -/
theorem anasys_load_noData_iff_witness :
    anasys_load trivRot ⟨some ⟨"Document", some "IR", some "1.0", []⟩⟩ =
      LoadResult.errNoData := by
  have h := anasys_load_noData_iff trivRot
    ⟨"Document", some "IR", some "1.0", []⟩ (by decide)
  exact h.1.mpr rfl

/-- Counterexample to C2 as stated: a document with two `HeightMaps`
sections, the first containing one valid channel and the second empty,
produces one valid raster image in total, yet the load fails with
NoDataError because the second section's count (zero) overwrites the
first's. -/
theorem anasys_load_total_counterexample :
    specTotalValidImages trivRot
      [DocSection.heightMaps [chGood], DocSection.heightMaps []] = 1 ∧
    anasys_load trivRot
      ⟨some ⟨"Document", some "IR", some "1.0",
        [DocSection.heightMaps [chGood], DocSection.heightMaps []]⟩⟩ =
      LoadResult.errNoData ∧
    ¬(anasys_load trivRot
        ⟨some ⟨"Document", some "IR", some "1.0",
          [DocSection.heightMaps [chGood], DocSection.heightMaps []]⟩⟩ =
          LoadResult.errNoData ↔
      specTotalValidImages trivRot
        [DocSection.heightMaps [chGood], DocSection.heightMaps []] = 0) := by
  refine ⟨rfl, rfl, fun h => absurd (h.mp rfl) (by decide)⟩

/-- C1: the document-type check of `anasys_load` subtracts the two
`xmlStrEqual` results, so it rejects exactly when ONE of DocType/Version
matches the supported combination and the other does not; a document whose
DocType and Version BOTH differ from ("IR", "1.0") passes validation, and
the load proceeds (here, to NoDataError for lack of data) instead of
failing with a FileTypeError as the claim requires. -/
theorem docType_validation_xor :
    docTypeCheckFails (some "X") (some "2.0") = false ∧
    docTypeCheckFails (some "IR") (some "2.0") = true ∧
    docTypeCheckFails (some "X") (some "1.0") = true ∧
    docTypeCheckFails (some "IR") (some "1.0") = false ∧
    anasys_load trivRot ⟨some ⟨"Document", some "X", some "2.0", []⟩⟩ =
      LoadResult.errNoData ∧
    anasys_load trivRot ⟨some ⟨"Document", some "IR", some "2.0", []⟩⟩ =
      LoadResult.errFileType := by
  exact ⟨by decide, by decide, by decide, by decide, rfl, rfl⟩

/-- C9: when the parsed document has no root element, `anasys_load`
dereferences the NULL root while iterating its children (source line 134) —
undefined behaviour, modelled as `crash` — contradicting the claim that the
load never exhibits undefined behaviour; the permissive half of the claim
does hold: a root lacking both attributes, or not named Document, skips
validation and the load proceeds to a documented result. -/
theorem anasys_load_null_root :
    anasys_load trivRot ⟨none⟩ = LoadResult.crash ∧
    anasys_load trivRot ⟨some ⟨"Document", none, none, []⟩⟩ =
      LoadResult.errNoData ∧
    anasys_load trivRot ⟨some ⟨"Root", some "Z", some "9", []⟩⟩ =
      LoadResult.errNoData := by
  exact ⟨rfl, rfl, rfl⟩
